import Mathlib

/-!
Shallow embedding of src/app.py (Universal Document Reader, a Streamlit app).

The app converts uploaded office/document files to text via an external
converter (MarkItDown), previews the result, offers downloads, and records
per-file size statistics in session state.

Modelling conventions:
* raw file bytes are a `List ℕ`;
* Python float arithmetic is embedded as exact rational arithmetic (`ℚ`);
  every numeric value appearing in a theorem below is exactly representable
  in binary floating point as well, so no rounding discrepancy is hidden by
  this choice;
* the external converter (`md_engine.convert`) is a black box: it is passed
  in as a function from the temp path and the staged bytes to either text or
  an error;
* a raised Python exception is an `Except.error` carrying its message.
-/

deriving instance DecidableEq for Except

/-- Embedding of a Streamlit UploadedFile: a name and raw byte content. -/
structure UploadedFile where
  name : String
  content : List ℕ
deriving DecidableEq, Repr

/-- The Streamlit attribute `uploaded_file.size`: the number of raw bytes. -/
def UploadedFile.size (f : UploadedFile) : ℕ := f.content.length

/-- Index of the last occurrence of a character in a list (helper for the
embedding of os.path.splitext). -/
def lastIdxOf (c : Char) : List Char → Option ℕ
  | [] => none
  | a :: rest =>
    match lastIdxOf c rest with
    | some i => some (i + 1)
    | none => if a = c then some 0 else none

/-- os.path.splitext restricted to bare file names (no directory separators,
which is what the uploader produces): split at the last dot, provided some
character before that dot is not itself a dot (Python skips leading dots, so
".bashrc" has no extension). -/
def splitext (p : String) : String × String :=
  match lastIdxOf '.' p.data with
  | none => (p, "")
  | some d =>
      if (p.data.take d).any (fun ch => ch ≠ '.') then
        (String.mk (p.data.take d), String.mk (p.data.drop d))
      else (p, "")

/-- Rounding of a rational to the nearest integer, ties to even, as Python
float formatting rounds the value it prints.  No value formatted in the
theorems below is a tie, so the tie rule never matters there. -/
def roundHalfEven (q : ℚ) : ℤ :=
  if q - (⌊q⌋ : ℚ) < 1/2 then ⌊q⌋
  else if 1/2 < q - (⌊q⌋ : ℚ) then ⌊q⌋ + 1
  else if ⌊q⌋ % 2 = 0 then ⌊q⌋ else ⌊q⌋ + 1

/-- Left-pad a string with zeros to width k. -/
def padZeros (k : ℕ) (s : String) : String :=
  String.mk (List.replicate (k - s.length) '0') ++ s

/-- Embedding of Python f-string fixed-point formatting with `prec` digits
after the point (the source uses :.2f and :.1f). -/
def fmtFixed (prec : ℕ) (q : ℚ) : String :=
  (if roundHalfEven (q * (10 : ℚ) ^ prec) < 0 then "-" else "")
    ++ toString ((roundHalfEven (q * (10 : ℚ) ^ prec)).natAbs / 10 ^ prec)
    ++ "."
    ++ padZeros prec (toString ((roundHalfEven (q * (10 : ℚ) ^ prec)).natAbs % 10 ^ prec))

/-- Loop of format_size (src/app.py lines 32-36): step through the unit
list, returning at the first unit where the magnitude is below 1024 and
dividing by 1024 otherwise; once the list is exhausted, TB is used
regardless of the remaining magnitude. -/
def format_size_loop (size_in_bytes : ℚ) : List String → String
  | [] => fmtFixed 2 size_in_bytes ++ " TB"
  | unit :: units =>
      if size_in_bytes < 1024 then fmtFixed 2 size_in_bytes ++ " " ++ unit
      else format_size_loop (size_in_bytes / 1024) units

/-- format_size (src/app.py lines 30-36): converts bytes to a readable
KB/MB string. -/
def format_size (size_in_bytes : ℚ) : String :=
  format_size_loop size_in_bytes ["B", "KB", "MB", "GB"]

/-- UTF-8 encoding of a single character (the byte sequence produced for it
by Python str.encode with encoding utf-8). -/
def utf8EncodeChar (c : Char) : List ℕ :=
  if c.toNat ≤ 0x7F then [c.toNat]
  else if c.toNat ≤ 0x7FF then
    [0xC0 + c.toNat / 64, 0x80 + c.toNat % 64]
  else if c.toNat ≤ 0xFFFF then
    [0xE0 + c.toNat / 4096, 0x80 + c.toNat / 64 % 64, 0x80 + c.toNat % 64]
  else
    [0xF0 + c.toNat / 262144, 0x80 + c.toNat / 4096 % 64,
     0x80 + c.toNat / 64 % 64, 0x80 + c.toNat % 64]

/-- UTF-8 encoding of a string: Python text.encode with encoding utf-8. -/
def encodeUTF8 (s : String) : List ℕ :=
  (s.data.map utf8EncodeChar).flatten

/-- src/app.py line 90: converted_size = len of text_content encoded as
UTF-8. Lean strings are UTF-8, so this is the cached UTF-8 byte size. -/
def converted_size (text_content : String) : ℕ :=
  text_content.utf8ByteSize

/-- src/app.py lines 93-96: the size-reduction percentage, guarded against
division by zero. -/
def reduction (original_size conv : ℕ) : ℚ :=
  if original_size > 0 then (1 - ((conv : ℚ) / (original_size : ℚ))) * 100 else 0

/-- Division instrumented to report a division-by-zero fault as `none`. -/
def divChecked (a b : ℚ) : Option ℚ :=
  if b = 0 then none else some (a / b)

/-- The reduction computation of src/app.py lines 93-96 with every division
routed through `divChecked`, to express that the `original_size > 0` guard
makes the division branch unreachable when the denominator is zero. -/
def reductionChecked (original_size conv : ℕ) : Option ℚ :=
  if original_size > 0 then
    (divChecked (conv : ℚ) (original_size : ℚ)).map (fun r => (1 - r) * 100)
  else some 0

/-- The per-file stats dict of src/app.py lines 98-103 (keys: File Name,
Original Size, Converted Size, Reduction). -/
structure StatEntry where
  fileName : String
  originalSize : String
  convertedSize : String
  reduction : String
deriving DecidableEq, Repr

/-- src/app.py lines 88-103: the stat entry computed for one successfully
converted file. -/
def stat_entry (f : UploadedFile) (text_content : String) : StatEntry :=
  { fileName := f.name
    originalSize := format_size (f.size : ℚ)
    convertedSize := format_size (converted_size text_content : ℚ)
    reduction := fmtFixed 1 (reduction f.size (converted_size text_content)) ++ "% smaller" }

/-- The user-visible artifacts the tab1 loop produces for one successfully
converted file: the preview text area value, the two download buttons
(file name and payload each), and the stat entry. -/
structure SuccessOutput where
  text : String
  mdName : String
  mdData : String
  txtName : String
  txtData : String
  stat : StatEntry
deriving DecidableEq, Repr

/-- src/app.py lines 106-134: preview and download artifacts for one file;
base_name = splitext(name)[0], download_name = base_name + "_converted". -/
def mkSuccess (f : UploadedFile) (text_content : String) : SuccessOutput :=
  { text := text_content
    mdName := (splitext f.name).1 ++ "_converted" ++ ".md"
    mdData := text_content
    txtName := (splitext f.name).1 ++ "_converted" ++ ".txt"
    txtData := text_content
    stat := stat_entry f text_content }

/-- src/app.py line 137: the generic per-file error message shown when
processing a file raises. -/
def errorMessage (f : UploadedFile) : String :=
  "⚠️ Could not read " ++ f.name ++ ". Please check the format."

/-- Body of the tab1 per-file try/except (src/app.py lines 83-137): process
the file through the engine; on success produce the artifacts and the stat
entry, on an exception catch it and show the generic error message. The
engine argument abstracts process_file together with the external
converter. -/
def processOne (engine : UploadedFile → Except String String) (f : UploadedFile) :
    Except String SuccessOutput :=
  match engine f with
  | Except.ok text_content => Except.ok (mkSuccess f text_content)
  | Except.error _ => Except.error (errorMessage f)

/-- The tab1 upload batch loop (src/app.py lines 79-104): starts from
current_stats = [], processes each file independently, and appends a stat
entry for each success; returns the per-file outcomes and current_stats. -/
def runBatchLoop (engine : UploadedFile → Except String String) :
    List UploadedFile → List (Except String SuccessOutput) × List StatEntry
  | [] => ([], [])
  | f :: fs =>
      let r := processOne engine f
      let rest := runBatchLoop engine fs
      (r :: rest.1,
       (match r with
        | Except.ok o => [o.stat]
        | Except.error _ => []) ++ rest.2)

/-- Session-state update of src/app.py lines 75 and 140: when files were
uploaded, st.session_state file_stats is assigned current_stats wholesale;
with no upload the body is skipped and the old state is kept. -/
def sessionUpdate (file_stats : List StatEntry)
    (engine : UploadedFile → Except String String)
    (uploaded_files : List UploadedFile) : List StatEntry :=
  if uploaded_files.isEmpty then file_stats
  else (runBatchLoop engine uploaded_files).2

/-- Inputs of one process_file call that the embedding does not compute
itself: the unique temp name chosen by NamedTemporaryFile, whether creating
the temp file succeeds, whether writing the buffer into it succeeds, and
the black-box converter (given the temp path and the staged bytes). -/
structure ConvEnv where
  tmpBase : String
  createOk : Bool
  writeOk : Bool
  convert : String → List ℕ → Except String String

/-- Outcome of a process_file call: the returned text or the propagated
exception, whether a temp file was created on disk, and whether it is still
on disk after the call. -/
structure RunResult where
  result : Except String String
  tempCreated : Bool
  tempRemains : Bool
deriving DecidableEq, Repr

/-- process_file (src/app.py lines 38-60). Control flow of the source:
suffix = splitext(name)[1]; NamedTemporaryFile(delete=False, suffix=suffix)
creates the file; tmp_file.write stages the bytes; tmp_path is assigned
only after the write; convert; os.remove; return text. The except branch
removes the temp file only when tmp_path is in locals() and the file
exists, then re-raises. os.remove itself is modelled as succeeding (its
own failure mode is outside every claim). -/
def process_file (env : ConvEnv) (f : UploadedFile) : RunResult :=
  if env.createOk = false then
    -- NamedTemporaryFile raised: no file on disk, tmp_path never assigned
    { result := Except.error "NamedTemporaryFile failed"
      tempCreated := false, tempRemains := false }
  else if env.writeOk = false then
    -- tmp_file.write raised: the file exists (delete=False), but tmp_path
    -- was never assigned, so the locals() check of the except branch skips
    -- os.remove and the file is left on disk
    { result := Except.error "write failed"
      tempCreated := true, tempRemains := true }
  else
    match env.convert (env.tmpBase ++ (splitext f.name).2) f.content with
    | Except.ok text_content =>
        -- success: os.remove(tmp_path); return converted_text
        { result := Except.ok text_content
          tempCreated := true, tempRemains := false }
    | Except.error e =>
        -- convert raised: tmp_path is in locals() and the file exists, so
        -- the except branch removes it and re-raises the same exception
        { result := Except.error e
          tempCreated := true, tempRemains := false }

/-! Helper lemmas. -/

/-- Rounding an integer-valued rational returns that integer. -/
lemma roundHalfEven_int (n : ℤ) : roundHalfEven ((n : ℚ)) = n := by
  unfold roundHalfEven
  rw [Int.floor_intCast]
  norm_num

/-- Evaluation of fmtFixed once the scaled value is known to be a whole
number. -/
lemma fmtFixed_eval (prec : ℕ) (q : ℚ) (n : ℤ) (h : q * (10 : ℚ) ^ prec = (n : ℚ)) :
    fmtFixed prec q =
      (if n < 0 then "-" else "")
        ++ toString (n.natAbs / 10 ^ prec) ++ "."
        ++ padZeros prec (toString (n.natAbs % 10 ^ prec)) := by
  unfold fmtFixed
  rw [h, roundHalfEven_int]

/-- Char.utf8Size, restated through c.toNat. -/
lemma char_utf8Size_eq (c : Char) :
    c.utf8Size =
      if c.toNat ≤ 0x7F then 1
      else if c.toNat ≤ 0x7FF then 2
      else if c.toNat ≤ 0xFFFF then 3
      else 4 := by
  have h : ∀ (m : ℕ) (hm : m < UInt32.size),
      (c.val ≤ UInt32.ofNatCore m hm) ↔ c.toNat ≤ m := by
    intro m hm
    simp [UInt32.le_def, BitVec.le_def, UInt32.ofNatCore, Char.toNat, UInt32.toNat]
  unfold Char.utf8Size
  simp only [h]

/-- The UTF-8 byte list of a character has length Char.utf8Size. -/
lemma utf8EncodeChar_length (c : Char) :
    (utf8EncodeChar c).length = c.utf8Size := by
  rw [char_utf8Size_eq]
  unfold utf8EncodeChar
  split_ifs <;> rfl

/-- Re-encoding round trip: the byte size cached for a Lean string is the
length of its UTF-8 encoding. -/
lemma converted_size_eq_encode (s : String) :
    converted_size s = (encodeUTF8 s).length := by
  obtain ⟨l⟩ := s
  show String.utf8ByteSize ⟨l⟩ = ((l.map utf8EncodeChar).flatten).length
  rw [String.utf8ByteSize_mk]
  induction l with
  | nil => rfl
  | cons c cs ih =>
      simp only [String.utf8Len_cons, List.map_cons, List.flatten_cons,
        List.length_append, utf8EncodeChar_length, ih]
      omega

/-- Case analysis of format_size: stop at the first unit among B, KB, MB,
GB whose threshold the magnitude is below, falling back to TB regardless of
magnitude once the unit list is exhausted. -/
lemma format_size_cases (n : ℚ) :
    format_size n =
      if n < 1024 then fmtFixed 2 n ++ " B"
      else if n < 1024 ^ 2 then fmtFixed 2 (n / 1024) ++ " KB"
      else if n < 1024 ^ 3 then fmtFixed 2 (n / 1024 ^ 2) ++ " MB"
      else if n < 1024 ^ 4 then fmtFixed 2 (n / 1024 ^ 3) ++ " GB"
      else fmtFixed 2 (n / 1024 ^ 4) ++ " TB" := by
  have p : (0 : ℚ) < 1024 := by norm_num
  have d2 : ∀ m : ℚ, m / 1024 / 1024 = m / 1024 ^ 2 := fun m => by ring
  have d3 : ∀ m : ℚ, m / 1024 / 1024 / 1024 = m / 1024 ^ 3 := fun m => by ring
  have d4 : ∀ m : ℚ, m / 1024 / 1024 / 1024 / 1024 = m / 1024 ^ 4 := fun m => by ring
  simp only [format_size, format_size_loop]
  by_cases h1 : n < 1024
  · rw [if_pos h1, if_pos h1, String.append_assoc]; rfl
  · rw [if_neg h1, if_neg h1]
    by_cases h2 : n < 1024 ^ 2
    · have h2l : n / 1024 < 1024 := by
        rw [div_lt_iff₀ p]; nlinarith [h2]
      rw [if_pos h2l, if_pos h2, String.append_assoc]; rfl
    · have h2l : ¬ (n / 1024 < 1024) := by
        rw [div_lt_iff₀ p]; push_neg at h2 ⊢; nlinarith [h2]
      rw [if_neg h2l, if_neg h2]
      by_cases h3 : n < 1024 ^ 3
      · have h3l : n / 1024 / 1024 < 1024 := by
          rw [div_lt_iff₀ p, div_lt_iff₀ p]; nlinarith [h3]
        rw [if_pos h3l, if_pos h3, d2, String.append_assoc]; rfl
      · have h3l : ¬ (n / 1024 / 1024 < 1024) := by
          rw [div_lt_iff₀ p, div_lt_iff₀ p]; push_neg at h3 ⊢; nlinarith [h3]
        rw [if_neg h3l, if_neg h3]
        by_cases h4 : n < 1024 ^ 4
        · have h4l : n / 1024 / 1024 / 1024 < 1024 := by
            rw [div_lt_iff₀ p, div_lt_iff₀ p, div_lt_iff₀ p]; nlinarith [h4]
          rw [if_pos h4l, if_pos h4, d3, String.append_assoc]; rfl
        · have h4l : ¬ (n / 1024 / 1024 / 1024 < 1024) := by
            rw [div_lt_iff₀ p, div_lt_iff₀ p, div_lt_iff₀ p]; push_neg at h4 ⊢; nlinarith [h4]
          rw [if_neg h4l, if_neg h4, d4]

/-! Concrete fixtures used by witness theorems. -/

/-- A file whose conversion succeeds under engineMixed. -/
def fileA : UploadedFile := ⟨"alpha.pdf", [0, 1]⟩

/-- A file whose conversion fails under engineMixed. -/
def fileB : UploadedFile := ⟨"beta.xlsx", [2]⟩

/-- Another file whose conversion succeeds under engineMixed. -/
def fileC : UploadedFile := ⟨"gamma.html", [3]⟩

/-- An engine that fails exactly on beta.xlsx. -/
def engineMixed : UploadedFile → Except String String := fun f =>
  if f.name = "beta.xlsx" then Except.error "converter choked"
  else Except.ok ("text of " ++ f.name)

/-- An engine that succeeds on every file. -/
def engineOk : UploadedFile → Except String String := fun f =>
  Except.ok ("md of " ++ f.name)

/-- A converter whose output does not depend on the temp path. -/
def convDet : String → List ℕ → Except String String := fun _ c =>
  Except.ok (toString c.length)

/-- An environment where staging succeeds and the converter raises. -/
def envConvFail : ConvEnv :=
  ⟨"/tmp/t0", true, true, fun _ _ => Except.error "unsupported format"⟩

/-! Claim theorems. -/

/-- Claim C1, counterexample: the claim says the transient temp file is
released on every failure path, including a failure while staging the
bytes. In the run below the write into the temp file fails before tmp_path
is assigned; the error is propagated, a temp file was created, and it is
still on disk afterwards, so the claim as stated is false. -/
theorem c1_staging_leak_counterexample :
    (process_file ⟨"/tmp/t1", true, false, fun _ _ => Except.ok "text"⟩
        ⟨"a.pdf", [7]⟩).result = Except.error "write failed"
    ∧ (process_file ⟨"/tmp/t1", true, false, fun _ _ => Except.ok "text"⟩
        ⟨"a.pdf", [7]⟩).tempCreated = true
    ∧ (process_file ⟨"/tmp/t1", true, false, fun _ _ => Except.ok "text"⟩
        ⟨"a.pdf", [7]⟩).tempRemains = true := by
  decide

/-- Claim C1, amended: the temp file is deleted before any error is
propagated on every path that reaches the conversion call (that is,
whenever staging completed and tmp_path was assigned), regardless of how
the conversion call exits; a temp file survives the call exactly when the
failure occurred while staging the bytes, before tmp_path was assigned. -/
theorem c1_cleanup_amended (env : ConvEnv) (f : UploadedFile) :
    ((env.createOk = true ∧ env.writeOk = true) →
        (process_file env f).tempRemains = false)
    ∧ ((process_file env f).tempRemains = true ↔
        env.createOk = true ∧ env.writeOk = false) := by
  cases hc : env.createOk with
  | false => simp [process_file, hc]
  | true =>
    cases hw : env.writeOk with
    | false => simp [process_file, hc, hw]
    | true =>
      cases hcv : env.convert (env.tmpBase ++ (splitext f.name).2) f.content with
      | ok t => simp [process_file, hc, hw, hcv]
      | error e => simp [process_file, hc, hw, hcv]

/-- Claim C1, witness for the amended theorem at a concrete run where the
converter raises after staging succeeded. -/
theorem c1_cleanup_amended_witness :
    (process_file envConvFail fileA).tempRemains = false :=
  (c1_cleanup_amended envConvFail fileA).1 ⟨rfl, rfl⟩

/-- Claim C10: whenever a step raises after the temp path has been
assigned (staging completed, then the conversion call fails), process_file
removes the temp file and re-raises the very same exception; it never
returns a normal value on a failed conversion. -/
theorem c10_reraise (env : ConvEnv) (f : UploadedFile) (e : String)
    (hc : env.createOk = true) (hw : env.writeOk = true)
    (hcv : env.convert (env.tmpBase ++ (splitext f.name).2) f.content
        = Except.error e) :
    (process_file env f).result = Except.error e
    ∧ (process_file env f).tempRemains = false
    ∧ ∀ t : String, (process_file env f).result ≠ Except.ok t := by
  refine ⟨?_, ?_, ?_⟩ <;> simp [process_file, hc, hw, hcv]

/-- Claim C10, witness: a concrete run whose converter raises. -/
theorem c10_reraise_witness :
    (process_file envConvFail fileA).result = Except.error "unsupported format"
    ∧ (process_file envConvFail fileA).tempRemains = false :=
  ⟨(c10_reraise envConvFail fileA "unsupported format" rfl rfl rfl).1,
   (c10_reraise envConvFail fileA "unsupported format" rfl rfl rfl).2.1⟩

/-- Claim C2: in a 3-file batch where file 2 raises, the loop catches the
error per file: it yields the success artifacts for files 1 and 3, the
generic per-file error for file 2, current_stats holds exactly the 2
entries of the successful files, and (in general) every file of a batch
gets an outcome no matter which conversions fail. -/
theorem c2_batch_failure_isolated (engine : UploadedFile → Except String String)
    (f1 f2 f3 : UploadedFile) (t1 t3 e : String)
    (h1 : engine f1 = Except.ok t1) (h2 : engine f2 = Except.error e)
    (h3 : engine f3 = Except.ok t3) :
    (runBatchLoop engine [f1, f2, f3]).1
        = [Except.ok (mkSuccess f1 t1), Except.error (errorMessage f2),
           Except.ok (mkSuccess f3 t3)]
    ∧ (runBatchLoop engine [f1, f2, f3]).2 = [stat_entry f1 t1, stat_entry f3 t3]
    ∧ ((runBatchLoop engine [f1, f2, f3]).2).length = 2
    ∧ ∀ fs : List UploadedFile, ((runBatchLoop engine fs).1).length = fs.length := by
  have hlen : ∀ fs : List UploadedFile,
      ((runBatchLoop engine fs).1).length = fs.length := by
    intro fs
    induction fs with
    | nil => rfl
    | cons f fs ih => simp [runBatchLoop, ih]
  refine ⟨?_, ?_, ?_, hlen⟩ <;>
    simp [runBatchLoop, processOne, h1, h2, h3, mkSuccess]

/-- Claim C2, witness: the concrete 3-file batch with engineMixed. -/
theorem c2_batch_failure_isolated_witness :
    ((runBatchLoop engineMixed [fileA, fileB, fileC]).2).length = 2 :=
  (c2_batch_failure_isolated engineMixed fileA fileB fileC
      "text of alpha.pdf" "text of gamma.html" "converter choked"
      (by decide) (by decide) (by decide)).2.2.1

/-- Claim C3: converted_size is exactly the UTF-8 byte length of the
converted text (re-encoding the text yields the same length used in the
stat), reductionPercent is (1 - convertedSize/originalSize) * 100 whenever
originalSize is positive, and a 200000-byte original converting to 50000
UTF-8 bytes yields a reduction of 75 percent. -/
theorem c3_size_accounting :
    (∀ text_content : String,
        converted_size text_content = (encodeUTF8 text_content).length)
    ∧ (∀ (original_size : ℕ) (text_content : String), 0 < original_size →
        reduction original_size (converted_size text_content)
          = (1 - ((converted_size text_content : ℚ) / (original_size : ℚ))) * 100)
    ∧ reduction 200000 50000 = 75 := by
  refine ⟨converted_size_eq_encode, ?_, ?_⟩
  · intro o t ho
    simp [reduction, ho]
  · norm_num [reduction]

/-- Claim C3, witness at a concrete positive original size. -/
theorem c3_size_accounting_witness :
    0 < 200000
    ∧ reduction 200000 (converted_size "a")
        = (1 - ((converted_size "a" : ℚ) / (200000 : ℚ))) * 100 :=
  ⟨by norm_num, c3_size_accounting.2.1 200000 "a" (by norm_num)⟩

/-- Claim C4: format_size steps through B, KB, MB, GB dividing by 1024,
stops at the first unit where the magnitude is below 1024, uses TB
regardless of magnitude when the list is exhausted, and formats the
magnitude to two decimals followed by a space and the unit; checkpoints:
0, 1023, 1024 and 1024*1024 bytes. -/
theorem c4_format_size_spec :
    (∀ n : ℚ, format_size n =
      if n < 1024 then fmtFixed 2 n ++ " B"
      else if n < 1024 ^ 2 then fmtFixed 2 (n / 1024) ++ " KB"
      else if n < 1024 ^ 3 then fmtFixed 2 (n / 1024 ^ 2) ++ " MB"
      else if n < 1024 ^ 4 then fmtFixed 2 (n / 1024 ^ 3) ++ " GB"
      else fmtFixed 2 (n / 1024 ^ 4) ++ " TB")
    ∧ format_size 0 = "0.00 B"
    ∧ format_size 1023 = "1023.00 B"
    ∧ format_size 1024 = "1.00 KB"
    ∧ format_size (1024 * 1024) = "1.00 MB" := by
  refine ⟨format_size_cases, ?_, ?_, ?_, ?_⟩
  · simp only [format_size, format_size_loop]
    rw [if_pos (by norm_num : (0 : ℚ) < 1024), fmtFixed_eval 2 0 0 (by norm_num)]
    decide
  · simp only [format_size, format_size_loop]
    rw [if_pos (by norm_num : (1023 : ℚ) < 1024),
      fmtFixed_eval 2 1023 102300 (by norm_num)]
    decide
  · simp only [format_size, format_size_loop]
    rw [if_neg (by norm_num : ¬ ((1024 : ℚ) < 1024)),
      if_pos (by norm_num : (1024 : ℚ) / 1024 < 1024),
      show (1024 : ℚ) / 1024 = 1 by norm_num,
      fmtFixed_eval 2 1 100 (by norm_num)]
    decide
  · simp only [format_size, format_size_loop]
    rw [if_neg (by norm_num : ¬ ((1024 * 1024 : ℚ) < 1024)),
      if_neg (by norm_num : ¬ ((1024 * 1024 : ℚ) / 1024 < 1024)),
      if_pos (by norm_num : (1024 * 1024 : ℚ) / 1024 / 1024 < 1024),
      show (1024 * 1024 : ℚ) / 1024 / 1024 = 1 by norm_num,
      fmtFixed_eval 2 1 100 (by norm_num)]
    decide

/-- Claim C5: whenever files were uploaded, the stored stats are assigned
the stats of that batch wholesale, independent of any previous state; in
particular after a nonempty batch A and then a 1-file batch B whose file
converts successfully, the stored stats are exactly the single entry of
batch B. -/
theorem c5_stats_replaced (old : List StatEntry)
    (engA engB : UploadedFile → Except String String)
    (filesA : List UploadedFile) (b : UploadedFile) (t : String)
    (hA : filesA ≠ []) (hB : engB b = Except.ok t) :
    (∀ (prev : List StatEntry) (engine : UploadedFile → Except String String)
        (files : List UploadedFile), files ≠ [] →
        sessionUpdate prev engine files = (runBatchLoop engine files).2)
    ∧ sessionUpdate (sessionUpdate old engA filesA) engB [b] = [stat_entry b t]
    ∧ (sessionUpdate (sessionUpdate old engA filesA) engB [b]).length = 1 := by
  have hgen : ∀ (prev : List StatEntry) (engine : UploadedFile → Except String String)
      (files : List UploadedFile), files ≠ [] →
      sessionUpdate prev engine files = (runBatchLoop engine files).2 := by
    intro prev engine files hne
    cases files with
    | nil => exact absurd rfl hne
    | cons f fs => simp [sessionUpdate, List.isEmpty]
  have hone : sessionUpdate (sessionUpdate old engA filesA) engB [b]
      = [stat_entry b t] := by
    rw [hgen _ _ _ (by simp)]
    simp [runBatchLoop, processOne, hB, mkSuccess]
  exact ⟨hgen, hone, by rw [hone]; rfl⟩

/-- Claim C5, witness: batch A of two files followed by batch B of one
successfully converted file leaves exactly one stat entry. -/
theorem c5_stats_replaced_witness :
    (sessionUpdate (sessionUpdate [] engineMixed [fileA, fileB]) engineOk
        [fileC]).length = 1 :=
  (c5_stats_replaced [] engineMixed engineOk [fileA, fileB] fileC
      "md of gamma.html" (by decide) (by decide)).2.2

/-- Claim C6: with an original size of 0 the computed reduction is 0 and no
division-by-zero fault occurs; routing the division through a checked
division shows the guard original_size > 0 keeps the division branch
unreachable when the denominator would be zero, on all inputs. -/
theorem c6_zero_size_guard :
    (∀ text_content : String,
        reductionChecked 0 (converted_size text_content) = some 0
        ∧ reduction 0 (converted_size text_content) = 0)
    ∧ ∀ original_size conv : ℕ,
        (reductionChecked original_size conv).isSome = true
        ∧ reductionChecked original_size conv
            = some (reduction original_size conv) := by
  constructor
  · intro t
    exact ⟨by simp [reductionChecked], by simp [reduction]⟩
  · intro o c
    by_cases ho : 0 < o
    · have hne : ((o : ℚ)) ≠ 0 := Nat.cast_ne_zero.mpr (by omega)
      constructor <;> simp [reductionChecked, reduction, divChecked, ho, hne]
    · have ho0 : o = 0 := by omega
      subst ho0
      constructor <;> simp [reductionChecked, reduction]

/-- Claim C7: the reduction label is the reduction percentage formatted to
one decimal place followed by the literal suffix "% smaller", and the
percentage is negative (while the label keeps the same suffix) whenever the
conversion produced more bytes than the original. -/
theorem c7_reduction_label (f : UploadedFile) (text_content : String) :
    (stat_entry f text_content).reduction
        = fmtFixed 1 (reduction f.size (converted_size text_content)) ++ "% smaller"
    ∧ (0 < f.size → f.size < converted_size text_content →
        reduction f.size (converted_size text_content) < 0) := by
  constructor
  · rfl
  · intro hpos hbig
    have h0 : (0 : ℚ) < (f.size : ℚ) := by exact_mod_cast hpos
    have h1 : (1 : ℚ) < (converted_size text_content : ℚ) / (f.size : ℚ) :=
      (one_lt_div h0).mpr (by exact_mod_cast hbig)
    unfold reduction
    rw [if_pos hpos]
    nlinarith [h1]

/-- Claim C7, witness: a 1-byte file converting to 3 bytes of text has a
negative reduction percentage. -/
theorem c7_reduction_label_witness :
    0 < (UploadedFile.mk "a.pdf" [0]).size
    ∧ (UploadedFile.mk "a.pdf" [0]).size < converted_size "abc"
    ∧ reduction (UploadedFile.mk "a.pdf" [0]).size (converted_size "abc") < 0 :=
  ⟨by decide, by decide,
   (c7_reduction_label (UploadedFile.mk "a.pdf" [0]) "abc").2 (by decide) (by decide)⟩

/-- Claim C8: for every successfully converted file, the Markdown download
is named base_converted.md, the plain-text download base_converted.txt
(base = original name without its extension), and both payloads and the
preview are exactly the conversion result; concretely report.pdf yields
report_converted.md and report_converted.txt. -/
theorem c8_download_artifacts :
    (∀ (f : UploadedFile) (text_content : String),
        (mkSuccess f text_content).mdName = (splitext f.name).1 ++ "_converted.md"
        ∧ (mkSuccess f text_content).txtName = (splitext f.name).1 ++ "_converted.txt"
        ∧ (mkSuccess f text_content).mdData = text_content
        ∧ (mkSuccess f text_content).txtData = text_content
        ∧ (mkSuccess f text_content).text = text_content)
    ∧ (mkSuccess (UploadedFile.mk "report.pdf" []) "hello").mdName
        = "report_converted.md"
    ∧ (mkSuccess (UploadedFile.mk "report.pdf" []) "hello").txtName
        = "report_converted.txt" := by
  refine ⟨?_, by decide, by decide⟩
  intro f t
  refine ⟨?_, ?_, rfl, rfl, rfl⟩
  · show (splitext f.name).1 ++ "_converted" ++ ".md" = _
    rw [String.append_assoc]
    rfl
  · show (splitext f.name).1 ++ "_converted" ++ ".txt" = _
    rw [String.append_assoc]
    rfl

/-- Claim C9: with a converter whose result does not depend on the temp
path, two independent runs of the pipeline on the same file (different
unique temp names) return identical results, and when they succeed the
texts are byte-identical and all stat fields (converted byte size,
reduction percentage, stat entry) coincide. -/
theorem c9_deterministic (conv : String → List ℕ → Except String String)
    (hdet : ∀ p q c, conv p c = conv q c)
    (b1 b2 : String) (f : UploadedFile) :
    (process_file ⟨b1, true, true, conv⟩ f).result
        = (process_file ⟨b2, true, true, conv⟩ f).result
    ∧ ∀ t1 t2 : String,
        (process_file ⟨b1, true, true, conv⟩ f).result = Except.ok t1 →
        (process_file ⟨b2, true, true, conv⟩ f).result = Except.ok t2 →
        t1 = t2
        ∧ converted_size t1 = converted_size t2
        ∧ reduction f.size (converted_size t1)
            = reduction f.size (converted_size t2)
        ∧ stat_entry f t1 = stat_entry f t2 := by
  have key : conv (b1 ++ (splitext f.name).2) f.content
      = conv (b2 ++ (splitext f.name).2) f.content := hdet _ _ _
  have hres : (process_file ⟨b1, true, true, conv⟩ f).result
      = (process_file ⟨b2, true, true, conv⟩ f).result := by
    simp only [process_file]
    simp [key]
  refine ⟨hres, ?_⟩
  intro t1 t2 h1 h2
  have hE : (Except.ok t1 : Except String String) = Except.ok t2 := by
    rw [← h1, ← h2]
    exact hres
  have ht : t1 = t2 := Except.ok.inj hE
  subst ht
  exact ⟨rfl, rfl, rfl, rfl⟩

/-- Claim C9, witness: a path-independent converter run from two different
temp names gives the same result. -/
theorem c9_deterministic_witness :
    (process_file ⟨"/tmp/p1", true, true, convDet⟩ fileA).result
        = (process_file ⟨"/tmp/p2", true, true, convDet⟩ fileA).result :=
  (c9_deterministic convDet (fun _ _ _ => rfl) "/tmp/p1" "/tmp/p2" fileA).1
